import Mathlib

/-!
Verification of the video-link resolution service (netlify/functions/parser.py)
against its natural-language specification.

The embedding models the Python source shallowly:
- JSON values (the results of json.loads and the dictionaries the code builds)
  are an inductive `Json` type; JSON numbers are rationals (Python int/float
  division is exact on the inputs the claims exercise).
- Python dictionary/string operations used by the source (`.get`, `in`,
  indexing, `.strip`, `.replace`, truthiness) are modelled by total Lean
  functions returning `Except PyErr _` where the operation can raise.
- The external collaborators (the requests library and json.loads) are
  oracles passed in as parameters: a `FetchEnv` gives the outcome of the
  i-th GET attempt for a given URL and redirect flag, and a `JLoads`
  function gives the result of json.loads on a string (`none` = decode
  error).  Everything the repository itself does is translated from the
  source.
-/

/-- A JSON value / decoded Python object, as produced by json.loads and as
built by the parsers' return dictionaries.  Numbers are rationals. -/
inductive Json where
  | null : Json
  | bool : Bool → Json
  | num  : ℚ → Json
  | str  : String → Json
  | arr  : List Json → Json
  | obj  : List (String × Json) → Json

/-- Python exception classes relevant to the source's control flow:
ValueError (and its subclass json.JSONDecodeError), requests.RequestException,
and everything else (TypeError, AttributeError, KeyError, IndexError, ...). -/
inductive PyErr where
  | valueErr : String → PyErr
  | netErr   : String → PyErr
  | fault    : String → PyErr

/-- The str() of the exception, as used by the source's f-strings. -/
def PyErr.msg : PyErr → String
  | .valueErr m => m
  | .netErr m => m
  | .fault m => m

/-- The Python type name of a value, used in modelled exception messages. -/
def pyTypeName : Json → String
  | .null => "NoneType"
  | .bool _ => "bool"
  | .num _ => "int"
  | .str _ => "str"
  | .arr _ => "list"
  | .obj _ => "dict"

/-- Python truthiness of a decoded value. -/
def truthy : Json → Bool
  | .null => false
  | .bool b => b
  | .num n => if n = 0 then false else true
  | .str s => if s = "" then false else true
  | .arr xs => if xs.isEmpty then false else true
  | .obj fs => if fs.isEmpty then false else true

/-- Matches a literal list of characters at the head of a list; on success
returns the remainder.  Used to model literal parts of the source's regular
expressions and Python's substring tests. -/
def litMatch : List Char → List Char → Option (List Char)
  | [], cs => some cs
  | _ :: _, [] => none
  | p :: ps, c :: cs => if c = p then litMatch ps cs else none

/-- Python's substring containment test `pat in hay` (on strings). -/
def containsSub (pat : List Char) : List Char → Bool
  | [] => (litMatch pat []).isSome
  | c :: t => (litMatch pat (c :: t)).isSome || containsSub pat t

/-- String-level wrapper for `containsSub`. -/
def strContains (hay pat : String) : Bool :=
  containsSub pat.toList hay.toList

/-- Python whitespace class: the characters str.strip() removes and `\s`
matches (ASCII part; the registry domains and URLs in play are ASCII). -/
def pyWs (c : Char) : Bool :=
  c = ' ' || c = '\t' || c = '\n' || c = '\r' || c = '\x0b' || c = '\x0c'

/-- ASCII lower-casing of one character (model of str.lower per char). -/
def lowerChar (c : Char) : Char :=
  if 'A' ≤ c ∧ c ≤ 'Z' then Char.ofNat (c.toNat + 32) else c

/-- Model of Python str.lower(). -/
def lowerStr (s : String) : String :=
  String.mk (s.toList.map lowerChar)

/-- Model of Python str.strip() with no argument: drop leading and trailing
whitespace. -/
def stripStr (s : String) : String :=
  String.mk (((s.toList.dropWhile pyWs).reverse.dropWhile pyWs).reverse)

/-- Model of `d.get(key, dflt)`: AttributeError when the receiver is not a
dict. -/
def pyGetD (j : Json) (key : String) (dflt : Json) : Except PyErr Json :=
  match j with
  | .obj fs => .ok ((List.lookup key fs).getD dflt)
  | _ => .error (.fault
      ("AttributeError: '" ++ pyTypeName j ++ "' object has no attribute 'get'"))

/-- Model of Python `key in j` for a string key: membership for dicts and
lists, substring test for strings, TypeError otherwise. -/
def pyContains (key : String) (j : Json) : Except PyErr Bool :=
  match j with
  | .obj fs => .ok (fs.any (fun kv => kv.1 = key))
  | .arr xs => .ok (xs.any (fun x => match x with
      | .str s => s = key
      | _ => false))
  | .str s => .ok (strContains s key)
  | _ => .error (.fault
      ("argument of type '" ++ pyTypeName j ++ "' is not iterable"))

/-- Model of `j[key]` for a string key (only reached after a membership
test in the source): value lookup for dicts, TypeError for lists/strings. -/
def pyIndexStr (j : Json) (key : String) : Except PyErr Json :=
  match j with
  | .obj fs =>
    match List.lookup key fs with
    | some v => .ok v
    | none => .error (.fault ("KeyError: " ++ key))
  | .arr _ => .error (.fault
      "TypeError: list indices must be integers or slices, not str")
  | .str _ => .error (.fault "TypeError: string indices must be integers")
  | _ => .error (.fault
      ("TypeError: '" ++ pyTypeName j ++ "' object is not subscriptable"))

/-- Model of `j[0]`: first element for lists, first character for strings,
KeyError for dicts, TypeError otherwise. -/
def pyIndexZero (j : Json) : Except PyErr Json :=
  match j with
  | .arr (x :: _) => .ok x
  | .arr [] => .error (.fault "IndexError: list index out of range")
  | .str s =>
    match s.toList with
    | c :: _ => .ok (.str (String.mk [c]))
    | [] => .error (.fault "IndexError: string index out of range")
  | .obj _ => .error (.fault "KeyError: 0")
  | _ => .error (.fault
      ("TypeError: '" ++ pyTypeName j ++ "' object is not subscriptable"))

/-- Model of `j.strip()`: AttributeError when the receiver is not a string. -/
def pyStrip (j : Json) : Except PyErr String :=
  match j with
  | .str s => .ok (stripStr s)
  | _ => .error (.fault
      ("AttributeError: '" ++ pyTypeName j ++ "' object has no attribute 'strip'"))

/-- Model of Python str() on a decoded value, used by the source's f-strings
(container renderings are simplified; the claims only exercise strings). -/
def pyStr : Json → String
  | .null => "None"
  | .bool b => if b then "True" else "False"
  | .num q => if q.den = 1 then toString q.num else toString q
  | .str s => s
  | .arr _ => "[...]"
  | .obj _ => "\x7b...\x7d"

/-- Model of `j / 1000` (the duration normalization): numbers and booleans
divide, everything else raises TypeError. -/
def pyDivThousand (j : Json) : Except PyErr ℚ :=
  match j with
  | .num q => .ok (q / 1000)
  | .bool b => .ok ((if b then (1 : ℚ) else 0) / 1000)
  | _ => .error (.fault
      ("TypeError: unsupported operand type(s) for /: '" ++ pyTypeName j ++ "' and 'int'"))

/-- Field access on a built result dictionary (used only in statements). -/
def jfield (j : Json) (key : String) : Option Json :=
  match j with
  | .obj fs => List.lookup key fs
  | _ => none

namespace Config

/-- Config.MAX_RETRIES from the source. -/
def MAX_RETRIES : Nat := 3

/-- Config.SUPPORTED_PLATFORMS from the source, in its literal order. -/
def SUPPORTED_PLATFORMS : List (String × List String) :=
  [("douyin", ["douyin.com", "dy.com", "iesdouyin.com"]),
   ("kuaishou", ["kuaishou.com", "ks.com"]),
   ("xiaohongshu", ["xiaohongshu.com", "xhs.com"]),
   ("bilibili", ["bilibili.com", "b23.tv"]),
   ("weishi", ["weishi.qq.com"])]

end Config

/-- get_platform_from_url: lower-case the URL, then return the first platform
(in registry order) one of whose domain substrings occurs in it. -/
def get_platform_from_url (url : String) : Option String :=
  let url_lower := lowerStr url
  Config.SUPPORTED_PLATFORMS.findSome? (fun pd =>
    if pd.2.any (fun domain => strContains url_lower domain) then some pd.1 else none)

/-- An HTTP response as seen through the requests library: status code,
headers and body text. -/
structure Resp where
  status : Nat
  headers : List (String × String)
  body : String

/-- requests' case-insensitive `response.headers.get(key, dflt)`. -/
def headerGetD (hs : List (String × String)) (key : String) (dflt : String) : String :=
  match hs.find? (fun kv => lowerStr kv.1 = lowerStr key) with
  | some kv => kv.2
  | none => dflt

/-- The outcome of the i-th `session.get` for a given URL and redirect flag:
either a response or a raised requests.RequestException message. -/
def FetchEnv : Type := String → Bool → Nat → Except String Resp

/-- The behavior of json.loads (Python standard library, modelled as an
oracle): `none` means json.JSONDecodeError. -/
def JLoads : Type := String → Option Json

/-- response.raise_for_status(): raises HTTPError exactly when the status
code is 400 or above. -/
def raise_for_status (r : Resp) : Except String Resp :=
  if 400 ≤ r.status then .error ("HTTPError " ++ toString r.status) else .ok r

/-- One attempt of the retry loop: the GET outcome followed by
raise_for_status. -/
def attemptResult (att : Nat → Except String Resp) (i : Nat) : Except String Resp :=
  match att i with
  | .error e => .error e
  | .ok r => raise_for_status r

/-- The body of make_request's `for attempt in range(Config.MAX_RETRIES)`
loop: return the first successful attempt; re-raise the exception of the
last attempt; the raise after the loop is unreachable for MAX_RETRIES > 0. -/
def make_request_go (att : Nat → Except String Resp) : List Nat → Except String Resp
  | [] => .error "请求失败，已达到最大重试次数"
  | i :: rest =>
    match attemptResult att i with
    | .ok r => .ok r
    | .error e =>
      if i = Config.MAX_RETRIES - 1 then .error e else make_request_go att rest

/-- make_request from the source, over the attempt oracle for one (url,
follow_redirects) pair. -/
def make_request (att : Nat → Except String Resp) : Except String Resp :=
  make_request_go att (List.range Config.MAX_RETRIES)

/-- re.search applied to every start position from the left: the embedding
of leftmost-match search for the source's patterns. -/
def searchAny {α : Type} (f : List Char → Option α) : List Char → Option α
  | [] => f []
  | c :: cs =>
    match f (c :: cs) with
    | some r => some r
    | none => searchAny f cs

/-- Anchored match of a pattern of the form `<lit>(\d+)`: the literal, then
a nonempty greedy digit run, whose digits are the captured group. -/
def digitsAfterLit (lit : List Char) (cs : List Char) : Option (List Char) :=
  match litMatch lit cs with
  | none => none
  | some rest =>
    let ds := rest.takeWhile Char.isDigit
    if ds.isEmpty then none else some ds

/-- The search for the source pattern `/video/(\d+)`. -/
def searchVideoPath (cs : List Char) : Option (List Char) :=
  searchAny (digitsAfterLit ("/video/".toList)) cs

/-- The search for the source pattern `item_ids=(\d+)`. -/
def searchItemIds (cs : List Char) : Option (List Char) :=
  searchAny (digitsAfterLit ("item_ids=".toList)) cs

/-- Drops a single final occurrence of the given character. -/
def dropFinal (c : Char) (cs : List Char) : List Char :=
  match cs.getLast? with
  | some x => if x = c then cs.dropLast else cs
  | none => cs

/-- The search for the source pattern `/(\d+)/?$`: after ignoring an
optional final newline (Python `$`) and an optional final slash, the string
must end in a nonempty digit run preceded by a slash; that run is captured. -/
def searchTrailingNum (cs : List Char) : Option (List Char) :=
  let base := dropFinal '/' (dropFinal '\n' cs)
  let r := base.reverse
  let ds := r.takeWhile Char.isDigit
  if ds.isEmpty then none
  else
    match r.drop ds.length with
    | '/' :: _ => some ds.reverse
    | _ => none

/-- The characters strictly before the first occurrence of a (nonempty)
literal; `none` when the literal does not occur.  Models the lazy `.*?`
group bounded by a closing literal under re.DOTALL. -/
def upToLit (close : List Char) : List Char → Option (List Char)
  | [] => if (litMatch close []).isSome then some [] else none
  | c :: cs =>
    if (litMatch close (c :: cs)).isSome then some []
    else (upToLit close cs).map (fun b => c :: b)

/-- Anchored match of the source patterns `VAR\s*=\s*({.*?})CLOSE` (the
group is an opening brace, a lazy run of any characters, and a closing
brace): the captured group is the opening brace, then everything up to and
including the first closing brace that is directly followed by the CLOSE
literal. -/
def matchAssignCapture (varLit close : List Char) (cs : List Char) : Option (List Char) :=
  match litMatch varLit cs with
  | none => none
  | some r1 =>
    match r1.dropWhile pyWs with
    | '=' :: r3 =>
      match r3.dropWhile pyWs with
      | '\x7b' :: r5 =>
        (upToLit ('\x7d' :: close) r5).map (fun b => '\x7b' :: (b ++ [ '\x7d' ]))
      | _ => none
    | _ => none

/-- Kuaishou page-data capture: re.search of
`window\.pageData\s*=\s*({.*?});` with re.DOTALL over the page text. -/
def kuaishouPageData (html : String) : Option String :=
  (searchAny (matchAssignCapture ("window.pageData".toList) [ ';' ]) html.toList).map
    (fun cs => String.mk cs)

/-- Xiaohongshu state capture: re.search of
`window\.__INITIAL_STATE__\s*=\s*({.*?})</script>` with re.DOTALL. -/
def xhsInitialState (html : String) : Option String :=
  (searchAny (matchAssignCapture ("window.__INITIAL_STATE__".toList)
    ("</script>".toList)) html.toList).map (fun cs => String.mk cs)

/-- Python str.replace for a nonempty pattern `p0 :: ps`, by structural
recursion on a fuel bounded by the text length: replaces every
non-overlapping occurrence, scanning left to right.  The fuel-0 equation
is never reached when the fuel starts at the text length. -/
def replaceAllGo (p0 : Char) (ps rep : List Char) : Nat → List Char → List Char
  | 0, cs => cs
  | _ + 1, [] => []
  | fuel + 1, c :: cs =>
    if c = p0 ∧ (litMatch ps cs).isSome then
      rep ++ replaceAllGo p0 ps rep fuel (cs.drop ps.length)
    else
      c :: replaceAllGo p0 ps rep fuel cs

/-- Python str.replace for a nonempty pattern `p0 :: ps`. -/
def replaceAll (p0 : Char) (ps rep : List Char) (cs : List Char) : List Char :=
  replaceAllGo p0 ps rep cs.length cs

/-- The source's watermark rewrite:
`download_url.replace('watermark=1', 'watermark=0')`. -/
def rewriteWatermark (s : String) : String :=
  String.mk (replaceAll 'w' ("atermark=1".toList) ("watermark=0".toList) s.toList)

/-- The modelled str() of a json.JSONDecodeError (library text). -/
def jsonDecodeMsg : String := "Expecting value: line 1 column 1 (char 0)"

/-- The ordered pattern list of DouyinParser._extract_video_id. -/
def douyinIdPatterns : List (List Char → Option (List Char)) :=
  [searchVideoPath, searchItemIds, searchTrailingNum]

namespace DouyinParser

/-- DouyinParser._extract_video_id: the first matching pattern's captured
digits, tried in the source's order. -/
def extract_video_id (url : String) : Option String :=
  (douyinIdPatterns.findSome? (fun p => p url.toList)).map (fun d => String.mk d)

/-- The body of DouyinParser.parse before its broad exception wrapper:
resolve the short link without following redirects, extract the numeric id,
call the item-info API, pick the first play address, rewrite the watermark
flag, and build the result dictionary. -/
def parseInner (env : FetchEnv) (jl : JLoads) (url : String) : Except PyErr Json :=
  match make_request (env url false) with
  | .error m => .error (.netErr m)
  | .ok response =>
    let real_url := if response.status = 301 ∨ response.status = 302
      then headerGetD response.headers "Location" url else url
    match extract_video_id real_url with
    | none => .error (.valueErr "无法提取视频ID")
    | some video_id =>
      if video_id = "" then .error (.valueErr "无法提取视频ID")
      else
        let api_url :=
          "https://www.iesdouyin.com/web/api/v2/aweme/iteminfo/?item_ids=" ++ video_id
        match make_request (env api_url true) with
        | .error m => .error (.netErr m)
        | .ok api_response =>
          match jl api_response.body with
          | none => .error (.valueErr jsonDecodeMsg)
          | some data =>
            match pyContains "item_list" data with
            | .error e => .error e
            | .ok hasIL =>
              if hasIL = false then .error (.valueErr "API响应格式错误")
              else
                match pyIndexStr data "item_list" with
                | .error e => .error e
                | .ok il =>
                  if truthy il = false then .error (.valueErr "API响应格式错误")
                  else
                    match pyIndexZero il with
                    | .error e => .error e
                    | .ok item =>
                      match pyGetD item "video" (.obj []) with
                      | .error e => .error e
                      | .ok video_info =>
                        match pyGetD video_info "play_addr" (.obj []) with
                        | .error e => .error e
                        | .ok play_addr =>
                          match pyContains "url_list" play_addr with
                          | .error e => .error e
                          | .ok hasUL =>
                            match
                              (if hasUL then
                                match pyIndexStr play_addr "url_list" with
                                | .error e => .error e
                                | .ok ul =>
                                  if truthy ul then pyIndexZero ul else .ok .null
                              else (.ok .null : Except PyErr Json)) with
                            | .error e => .error e
                            | .ok dl =>
                              if truthy dl = false then
                                .error (.valueErr "无法获取视频下载链接")
                              else
                                match dl with
                                | .str s =>
                                  let download_url := rewriteWatermark s
                                  match pyGetD item "desc" (.str "抖音视频") with
                                  | .error e => .error e
                                  | .ok titleJ =>
                                    match pyGetD item "author" (.obj []) with
                                    | .error e => .error e
                                    | .ok authorO =>
                                      match pyGetD authorO "nickname" (.str "") with
                                      | .error e => .error e
                                      | .ok authorJ =>
                                        match pyGetD video_info "duration" (.num 0) with
                                        | .error e => .error e
                                        | .ok durJ =>
                                          match pyDivThousand durJ with
                                          | .error e => .error e
                                          | .ok dur =>
                                            .ok (.obj [("success", .bool true),
                                              ("title", titleJ),
                                              ("download_url", .str download_url),
                                              ("platform", .str "抖音"),
                                              ("video_id", .str video_id),
                                              ("author", authorJ),
                                              ("duration", .num dur),
                                              ("size", .str "未知"),
                                              ("filename", .str
                                                ("douyin_" ++ video_id ++ ".mp4"))])
                                | _ => .error (.fault
                                    ("AttributeError: '" ++ pyTypeName dl ++
                                     "' object has no attribute 'replace'"))

/-- DouyinParser.parse: the inner body wrapped by the source's
`except Exception as e: raise ValueError(f"抖音视频解析失败: {str(e)}")`. -/
def parse (env : FetchEnv) (jl : JLoads) (url : String) : Except String Json :=
  match parseInner env jl url with
  | .ok j => .ok j
  | .error e => .error ("抖音视频解析失败: " ++ e.msg)

end DouyinParser

namespace KuaishouParser

/-- The part of KuaishouParser.parse that consumes the decoded page-data
object: require a truthy videoInfo, choose `srcNoMark or src`, require the
choice truthy, and build the result dictionary. -/
def fromPageData (page_data : Json) : Except PyErr Json :=
  match pyGetD page_data "videoInfo" (.obj []) with
  | .error e => .error e
  | .ok video_info =>
    if truthy video_info = false then .error (.valueErr "页面数据中无视频信息")
    else
      match pyGetD video_info "srcNoMark" .null with
      | .error e => .error e
      | .ok snm =>
        match pyGetD video_info "src" .null with
        | .error e => .error e
        | .ok src =>
          let video_url := if truthy snm then snm else src
          if truthy video_url = false then .error (.valueErr "无法获取视频下载链接")
          else
            match pyGetD video_info "title" (.str "快手视频") with
            | .error e => .error e
            | .ok titleJ =>
              match pyGetD video_info "userName" (.str "") with
              | .error e => .error e
              | .ok userJ =>
                match pyGetD video_info "photoId" (.str "video") with
                | .error e => .error e
                | .ok photoJ =>
                  .ok (.obj [("success", .bool true), ("title", titleJ),
                    ("download_url", video_url), ("platform", .str "快手"),
                    ("author", userJ), ("size", .str "未知"),
                    ("filename", .str ("kuaishou_" ++ pyStr photoJ ++ ".mp4"))])

/-- The body of KuaishouParser.parse before its broad exception wrapper:
fetch the page, capture the inline window.pageData object, decode it, and
hand it to `fromPageData`. -/
def parseInner (env : FetchEnv) (jl : JLoads) (url : String) : Except PyErr Json :=
  match make_request (env url true) with
  | .error m => .error (.netErr m)
  | .ok response =>
    match kuaishouPageData response.body with
    | none => .error (.valueErr "无法找到页面数据")
    | some captured =>
      match jl captured with
      | none => .error (.valueErr jsonDecodeMsg)
      | some page_data => fromPageData page_data

/-- KuaishouParser.parse: the inner body wrapped by the source's
`except Exception as e: raise ValueError(f"快手视频解析失败: {str(e)}")`. -/
def parse (env : FetchEnv) (jl : JLoads) (url : String) : Except String Json :=
  match parseInner env jl url with
  | .ok j => .ok j
  | .error e => .error ("快手视频解析失败: " ++ e.msg)

end KuaishouParser

namespace XiaohongshuParser

/-- One video-note entry of noteDetailMap turned into the note-data
dictionary of XiaohongshuParser._extract_note_data. -/
def buildNote (note_id : String) (note : Json) : Except PyErr (Option Json) :=
  match pyGetD note "video" (.obj []) with
  | .error e => .error e
  | .ok video_info =>
    match pyGetD note "title" (.str "") with
    | .error e => .error e
    | .ok titleJ =>
      match pyGetD note "user" (.obj []) with
      | .error e => .error e
      | .ok userJ =>
        match pyGetD userJ "nickname" (.str "") with
        | .error e => .error e
        | .ok nickJ =>
          match pyGetD video_info "media" (.obj []) with
          | .error e => .error e
          | .ok mediaJ =>
            match pyGetD mediaJ "videoKey" (.str "") with
            | .error e => .error e
            | .ok vkJ =>
              .ok (some (.obj [("note_id", .str note_id), ("title", titleJ),
                ("author", nickJ), ("video_url", vkJ)]))

/-- The loop of _extract_note_data over noteDetailMap.items(): the first
entry whose note type equals the string "video" is built; the rest are
skipped. -/
def noteFromEntries : List (String × Json) → Except PyErr (Option Json)
  | [] => .ok none
  | (note_id, note_info) :: rest =>
    match pyGetD note_info "note" (.obj []) with
    | .error e => .error e
    | .ok note =>
      match pyGetD note "type" .null with
      | .error e => .error e
      | .ok tJ =>
        match tJ with
        | .str s => if s = "video" then buildNote note_id note else noteFromEntries rest
        | _ => noteFromEntries rest

/-- XiaohongshuParser._extract_note_data: traverse note.noteDetailMap for
the first video note; any exception inside is swallowed into None by the
method's own try/except. -/
def extract_note_data (initial_state : Json) : Option Json :=
  let r : Except PyErr (Option Json) :=
    match pyGetD initial_state "note" (.obj []) with
    | .error e => .error e
    | .ok noteO =>
      match pyGetD noteO "noteDetailMap" (.obj []) with
      | .error e => .error e
      | .ok ndm =>
        match ndm with
        | .obj entries => noteFromEntries entries
        | _ => .error (.fault
            ("AttributeError: '" ++ pyTypeName ndm ++ "' object has no attribute 'items'"))
  match r with
  | .ok o => o
  | .error _ => none

/-- The body of XiaohongshuParser.parse before its broad exception wrapper:
fetch the page, capture window.__INITIAL_STATE__, decode it (a decode error
is re-raised with its own message), extract the note data, and build the
result dictionary. -/
def parseInner (env : FetchEnv) (jl : JLoads) (url : String) : Except PyErr Json :=
  match make_request (env url true) with
  | .error m => .error (.netErr m)
  | .ok response =>
    match xhsInitialState response.body with
    | none => .error (.valueErr "无法找到页面状态数据")
    | some captured =>
      match jl captured with
      | none => .error (.valueErr "页面数据解析失败")
      | some initial_state =>
        match extract_note_data initial_state with
        | none => .error (.valueErr "无法提取笔记数据")
        | some note_data =>
          match pyGetD note_data "video_url" .null with
          | .error e => .error e
          | .ok video_urlJ =>
            if truthy video_urlJ = false then .error (.valueErr "无法获取视频下载链接")
            else
              match pyGetD note_data "title" (.str "小红书视频") with
              | .error e => .error e
              | .ok titleJ =>
                match pyGetD note_data "author" (.str "") with
                | .error e => .error e
                | .ok authorJ =>
                  match pyGetD note_data "note_id" (.str "video") with
                  | .error e => .error e
                  | .ok nidJ =>
                    .ok (.obj [("success", .bool true), ("title", titleJ),
                      ("download_url", video_urlJ), ("platform", .str "小红书"),
                      ("author", authorJ), ("size", .str "未知"),
                      ("filename", .str ("xiaohongshu_" ++ pyStr nidJ ++ ".mp4"))])

/-- XiaohongshuParser.parse: the inner body wrapped by the source's
`except Exception as e: raise ValueError(f"小红书视频解析失败: {str(e)}")`. -/
def parse (env : FetchEnv) (jl : JLoads) (url : String) : Except String Json :=
  match parseInner env jl url with
  | .ok j => .ok j
  | .error e => .error ("小红书视频解析失败: " ++ e.msg)

end XiaohongshuParser

/-- The three registered strategies (the factory dictionary of the source's
get_parser; bilibili and weishi have no entry). -/
inductive ParserKind where
  | douyin : ParserKind
  | kuaishou : ParserKind
  | xiaohongshu : ParserKind

/-- The factory function get_parser from the source: the fixed mapping from
platform name to strategy. -/
def get_parser_for (platform : String) : Option ParserKind :=
  List.lookup platform
    [("douyin", ParserKind.douyin), ("kuaishou", ParserKind.kuaishou),
     ("xiaohongshu", ParserKind.xiaohongshu)]

/-- Dispatch a registered strategy on a URL (parser.parse in the handler). -/
def runParserKind (env : FetchEnv) (jl : JLoads) : ParserKind → String → Except String Json
  | .douyin, url => DouyinParser.parse env jl url
  | .kuaishou, url => KuaishouParser.parse env jl url
  | .xiaohongshu, url => XiaohongshuParser.parse env jl url

/-- The body field of a Netlify event: absent, a raw JSON string (decoded
by the handler through json.loads), or an already-decoded object. -/
inductive BodyField where
  | missing : BodyField
  | strBody : String → BodyField
  | pyBody : Json → BodyField

/-- The Netlify event record, restricted to the fields the handler reads. -/
structure Event where
  httpMethod : Option String
  body : BodyField

/-- The constant CORS/content-type header set of every handler response. -/
def corsHeaders : List (String × String) :=
  [("Access-Control-Allow-Origin", "*"),
   ("Access-Control-Allow-Headers", "Content-Type"),
   ("Access-Control-Allow-Methods", "POST, OPTIONS"),
   ("Content-Type", "application/json")]

/-- A handler response: status code, headers, and the decoded JSON body
(the source emits json.dumps of this value). -/
structure HResponse where
  statusCode : Nat
  headers : List (String × String)
  body : Json

/-- A failure response body `{'success': False, 'message': msg}` with the
given status code. -/
def mkFail (code : Nat) (msg : String) : HResponse :=
  ⟨code, corsHeaders, .obj [("success", .bool false), ("message", .str msg)]⟩

/-- The preflight acknowledgement response. -/
def preflightResp : HResponse :=
  ⟨200, corsHeaders, .obj [("message", .str "CORS preflight")]⟩

/-- The opaque internal-error response of the outermost exception handler. -/
def serverErrorResp : HResponse :=
  mkFail 500 "服务器内部错误，请稍后重试"

/-- The request-body decoding step of the handler: a string body goes
through json.loads (error = json.JSONDecodeError), a missing body becomes
the empty dict, anything else is used as-is. -/
def requestDataOf (jl : JLoads) : BodyField → Except Unit Json
  | .missing => .ok (.obj [])
  | .strBody s =>
    match jl s with
    | some j => .ok j
    | none => .error ()
  | .pyBody j => .ok j

/-- The handler body inside its outermost try: every early return is an
`.ok` response; an uncaught non-ValueError exception is an `.error`. -/
def handlerCore (env : FetchEnv) (jl : JLoads) (ev : Event) : Except PyErr HResponse :=
  if ev.httpMethod = some "OPTIONS" then .ok preflightResp
  else if ev.httpMethod ≠ some "POST" then .ok (mkFail 405 "只支持POST请求")
  else
    match requestDataOf jl ev.body with
    | .error _ => .ok (mkFail 400 "请求数据格式错误")
    | .ok request_data =>
      match pyGetD request_data "url" (.str "") with
      | .error e => .error e
      | .ok urlJ =>
        match pyStrip urlJ with
        | .error e => .error e
        | .ok video_url =>
          if video_url = "" then .ok (mkFail 400 "请提供视频链接")
          else
            match get_platform_from_url video_url with
            | none => .ok (mkFail 400 "不支持此平台，目前支持抖音、快手、小红书等平台")
            | some platform =>
              match get_parser_for platform with
              | none => .ok (mkFail 500 (platform ++ "解析器暂未实现"))
              | some kind =>
                match runParserKind env jl kind video_url with
                | .ok result => .ok ⟨200, corsHeaders, result⟩
                | .error m => .ok (mkFail 400 m)

/-- handler from the source: the core wrapped by the outermost
`except Exception`, which answers 500 with the generic message. -/
def handler (env : FetchEnv) (jl : JLoads) (ev : Event) : HResponse :=
  match handlerCore env jl ev with
  | .ok r => r
  | .error _ => serverErrorResp

/-- The behavioral-surface table of the specification, written row by row:
preflight, non-POST, unparsable body, missing or empty url, unknown
platform, unregistered strategy, strategy failure, strategy success, and
(final row) unanticipated internal fault. -/
def behaviorTable (env : FetchEnv) (jl : JLoads) (ev : Event) : HResponse :=
  if ev.httpMethod = some "OPTIONS" then preflightResp
  else if ev.httpMethod ≠ some "POST" then mkFail 405 "只支持POST请求"
  else
    match requestDataOf jl ev.body with
    | .error _ => mkFail 400 "请求数据格式错误"
    | .ok request_data =>
      match request_data with
      | .obj fields =>
        match List.lookup "url" fields with
        | none => mkFail 400 "请提供视频链接"
        | some (.str s) =>
          if stripStr s = "" then mkFail 400 "请提供视频链接"
          else
            match get_platform_from_url (stripStr s) with
            | none => mkFail 400 "不支持此平台，目前支持抖音、快手、小红书等平台"
            | some platform =>
              match get_parser_for platform with
              | none => mkFail 500 (platform ++ "解析器暂未实现")
              | some kind =>
                match runParserKind env jl kind (stripStr s) with
                | .ok result => ⟨200, corsHeaders, result⟩
                | .error m => mkFail 400 m
        | some _ => serverErrorResp
      | _ => serverErrorResp

theorem litMatch_eq_some (pat : List Char) :
    ∀ cs r : List Char, litMatch pat cs = some r ↔ cs = pat ++ r := by
  induction pat with
  | nil => intro cs r; simp [litMatch]
  | cons p ps ih =>
    intro cs r
    cases cs with
    | nil => simp [litMatch]
    | cons c cs' =>
      simp only [litMatch, List.cons_append]
      by_cases h : c = p
      · subst h; simp [ih]
      · simp [h]

theorem litMatch_isSome (pat cs : List Char) :
    (litMatch pat cs).isSome = true ↔ ∃ r, cs = pat ++ r := by
  rw [Option.isSome_iff_exists]
  constructor
  · rintro ⟨r, hr⟩; exact ⟨r, (litMatch_eq_some pat cs r).mp hr⟩
  · rintro ⟨r, hr⟩; exact ⟨r, (litMatch_eq_some pat cs r).mpr hr⟩

theorem containsSub_iff (pat : List Char) :
    ∀ hay : List Char, containsSub pat hay = true ↔ ∃ a b, hay = a ++ pat ++ b := by
  intro hay
  induction hay with
  | nil =>
    simp only [containsSub]
    rw [litMatch_isSome]
    constructor
    · rintro ⟨r, hr⟩
      exact ⟨[], r, by simpa using hr⟩
    · rintro ⟨a, b, hab⟩
      have ha : a = [] := by
        cases a with
        | nil => rfl
        | cons x xs => simp at hab
      subst ha
      exact ⟨b, by simpa using hab⟩
  | cons c t ih =>
    simp only [containsSub, Bool.or_eq_true]
    constructor
    · rintro (h | h)
      · obtain ⟨r, hr⟩ := (litMatch_isSome pat (c :: t)).mp h
        exact ⟨[], r, by simpa using hr⟩
      · obtain ⟨a, b, hab⟩ := ih.mp h
        exact ⟨c :: a, b, by simp [hab]⟩
    · rintro ⟨a, b, hab⟩
      cases a with
      | nil =>
        left
        exact (litMatch_isSome pat (c :: t)).mpr ⟨b, by simpa using hab⟩
      | cons a0 a' =>
        right
        simp only [List.cons_append, List.cons.injEq] at hab
        exact ih.mpr ⟨a', b, hab.2⟩

theorem strContains_iff (hay pat : String) :
    strContains hay pat = true ↔ ∃ a b, hay.toList = a ++ pat.toList ++ b :=
  containsSub_iff pat.toList hay.toList

theorem containsSub_cons_of (pat : List Char) (c : Char) (t : List Char)
    (h : containsSub pat t = true) : containsSub pat (c :: t) = true := by
  simp [containsSub, h]

theorem litMatch_self_append (l x : List Char) : litMatch l (l ++ x) = some x :=
  (litMatch_eq_some l (l ++ x) x).mpr rfl

theorem containsSub_append_self (r0 : Char) (rtl x : List Char) :
    containsSub (r0 :: rtl) ((r0 :: rtl) ++ x) = true := by
  simp only [containsSub, Bool.or_eq_true]
  left
  rw [litMatch_isSome]
  exact ⟨x, rfl⟩

theorem takeWhile_all {α : Type} (p : α → Bool) :
    ∀ l : List α, (l.takeWhile p).all p = true := by
  intro l
  induction l with
  | nil => rfl
  | cons x xs ih =>
    by_cases h : p x
    · simp [List.takeWhile, h, ih]
    · simp [List.takeWhile, h]

/-- Claim C2: classification lower-cases the input and returns the first
platform in registry iteration order one of whose domain substrings occurs
in the lowered URL, and None when no substring occurs; it depends only on
the lower-cased text (case-insensitivity), and occurrence is genuine
substring containment. -/
theorem classify_platform_characterization :
    (∀ url : String, get_platform_from_url url =
      (if (["douyin.com", "dy.com", "iesdouyin.com"]).any
            (fun d => strContains (lowerStr url) d) then some "douyin"
       else if (["kuaishou.com", "ks.com"]).any
            (fun d => strContains (lowerStr url) d) then some "kuaishou"
       else if (["xiaohongshu.com", "xhs.com"]).any
            (fun d => strContains (lowerStr url) d) then some "xiaohongshu"
       else if (["bilibili.com", "b23.tv"]).any
            (fun d => strContains (lowerStr url) d) then some "bilibili"
       else if (["weishi.qq.com"]).any
            (fun d => strContains (lowerStr url) d) then some "weishi"
       else none))
    ∧ (∀ u v : String, lowerStr u = lowerStr v →
        get_platform_from_url u = get_platform_from_url v)
    ∧ (∀ url : String, get_platform_from_url url = none ↔
        ∀ pd ∈ Config.SUPPORTED_PLATFORMS, ∀ d ∈ pd.2,
          strContains (lowerStr url) d = false)
    ∧ (∀ hay pat : String, strContains hay pat = true ↔
        ∃ a b, hay.toList = a ++ pat.toList ++ b) := by
  refine ⟨?_, ?_, ?_, ?_⟩
  · intro url
    simp only [get_platform_from_url, Config.SUPPORTED_PLATFORMS, List.findSome?_cons]
    by_cases c1 : (["douyin.com", "dy.com", "iesdouyin.com"]).any
        (fun d => strContains (lowerStr url) d)
    · rw [if_pos c1, if_pos c1]
    · rw [if_neg c1, if_neg c1]
      by_cases c2 : (["kuaishou.com", "ks.com"]).any
          (fun d => strContains (lowerStr url) d)
      · rw [if_pos c2, if_pos c2]
      · rw [if_neg c2, if_neg c2]
        by_cases c3 : (["xiaohongshu.com", "xhs.com"]).any
            (fun d => strContains (lowerStr url) d)
        · rw [if_pos c3, if_pos c3]
        · rw [if_neg c3, if_neg c3]
          by_cases c4 : (["bilibili.com", "b23.tv"]).any
              (fun d => strContains (lowerStr url) d)
          · rw [if_pos c4, if_pos c4]
          · rw [if_neg c4, if_neg c4]
            by_cases c5 : (["weishi.qq.com"]).any
                (fun d => strContains (lowerStr url) d)
            · rw [if_pos c5]
            · rw [if_neg c5]
              rfl
  · intro u v h
    simp only [get_platform_from_url]
    rw [h]
  · intro url
    simp only [get_platform_from_url, List.findSome?_eq_none_iff]
    constructor
    · intro h pd hpd d hd
      have := h pd hpd
      by_cases hc : strContains (lowerStr url) d = true
      · exfalso
        have hany : pd.2.any (fun domain => strContains (lowerStr url) domain) = true :=
          List.any_eq_true.mpr ⟨d, hd, hc⟩
        rw [if_pos hany] at this
        exact Option.noConfusion this
      · simpa using hc
    · intro h pd hpd
      have hany : pd.2.any (fun domain => strContains (lowerStr url) domain) = false := by
        rw [List.any_eq_false]
        intro d hd
        simp [h pd hpd d hd]
      rw [hany]
      simp
  · exact strContains_iff

/-- Witness for the case-insensitivity part of C2 at a concrete pair. -/
theorem classify_platform_characterization_witness :
    get_platform_from_url "https://WWW.DOUYIN.COM/video/7" =
      get_platform_from_url "https://www.douyin.com/video/7" :=
  classify_platform_characterization.2.1 "https://WWW.DOUYIN.COM/video/7"
    "https://www.douyin.com/video/7"
    (show lowerStr "https://WWW.DOUYIN.COM/video/7" =
      lowerStr "https://www.douyin.com/video/7" from rfl)

/-- Claim C1: for every request event the handler returns exactly the
response prescribed by the behavioral-surface table: OPTIONS 200; non-POST
405; unparsable JSON body 400; missing or empty url 400; unmatched
platform 400; classified platform without a registered strategy 500 with a
message naming the platform; strategy failure 400 with the failure
message; strategy success 200 with the full record (and an unanticipated
fault 500). -/
theorem handler_matches_behavior_table (env : FetchEnv) (jl : JLoads) (ev : Event) :
    handler env jl ev = behaviorTable env jl ev := by
  by_cases h1 : ev.httpMethod = some "OPTIONS"
  · simp [handler, handlerCore, behaviorTable, h1]
  · by_cases h2 : ev.httpMethod = some "POST"
    · cases hrd : requestDataOf jl ev.body with
      | error e =>
        simp [handler, handlerCore, behaviorTable, h1, h2, hrd]
      | ok rd =>
        cases rd with
        | obj fields =>
          cases hurl : List.lookup "url" fields with
          | none =>
            simp [handler, handlerCore, behaviorTable, h1, h2, hrd, pyGetD, hurl,
              pyStrip, stripStr]
          | some v =>
            cases v with
            | str s =>
              by_cases hs : stripStr s = ""
              · simp [handler, handlerCore, behaviorTable, h1, h2, hrd, pyGetD, hurl,
                  pyStrip, hs]
              · cases hp : get_platform_from_url (stripStr s) with
                | none =>
                  simp [handler, handlerCore, behaviorTable, h1, h2, hrd, pyGetD, hurl,
                    pyStrip, hs, hp]
                | some platform =>
                  cases hk : get_parser_for platform with
                  | none =>
                    simp [handler, handlerCore, behaviorTable, h1, h2, hrd, pyGetD, hurl,
                      pyStrip, hs, hp, hk]
                  | some kind =>
                    cases hr : runParserKind env jl kind (stripStr s) with
                    | ok result =>
                      simp [handler, handlerCore, behaviorTable, h1, h2, hrd, pyGetD,
                        hurl, pyStrip, hs, hp, hk, hr]
                    | error m =>
                      simp [handler, handlerCore, behaviorTable, h1, h2, hrd, pyGetD,
                        hurl, pyStrip, hs, hp, hk, hr]
            | null =>
              simp [handler, handlerCore, behaviorTable, h1, h2, hrd, pyGetD, hurl, pyStrip]
            | bool b =>
              simp [handler, handlerCore, behaviorTable, h1, h2, hrd, pyGetD, hurl, pyStrip]
            | num q =>
              simp [handler, handlerCore, behaviorTable, h1, h2, hrd, pyGetD, hurl, pyStrip]
            | arr xs =>
              simp [handler, handlerCore, behaviorTable, h1, h2, hrd, pyGetD, hurl, pyStrip]
            | obj fs =>
              simp [handler, handlerCore, behaviorTable, h1, h2, hrd, pyGetD, hurl, pyStrip]
        | null => simp [handler, handlerCore, behaviorTable, h1, h2, hrd, pyGetD]
        | bool b => simp [handler, handlerCore, behaviorTable, h1, h2, hrd, pyGetD]
        | num q => simp [handler, handlerCore, behaviorTable, h1, h2, hrd, pyGetD]
        | str s => simp [handler, handlerCore, behaviorTable, h1, h2, hrd, pyGetD]
        | arr xs => simp [handler, handlerCore, behaviorTable, h1, h2, hrd, pyGetD]
    · simp [handler, handlerCore, behaviorTable, h1, h2]

theorem make_request_eq_go (att : Nat → Except String Resp) :
    make_request att = make_request_go att [0, 1, 2] := rfl

/-- Claim C3 (amended): make_request performs at most MAX_RETRIES = 3 total
attempts, i.e. MAX_RETRIES - 1 retries beyond the first attempt: the first
successful attempt among the three is returned; when all three fail the
third attempt's failure is the one surfaced; attempts beyond the third are
never consulted. -/
theorem retry_count_amended :
    (∀ (att : Nat → Except String Resp) (r : Resp),
       attemptResult att 0 = .ok r → make_request att = .ok r)
    ∧ (∀ (att : Nat → Except String Resp) (e0 : String) (r : Resp),
       attemptResult att 0 = .error e0 → attemptResult att 1 = .ok r →
       make_request att = .ok r)
    ∧ (∀ (att : Nat → Except String Resp) (e0 e1 : String) (out : Except String Resp),
       attemptResult att 0 = .error e0 → attemptResult att 1 = .error e1 →
       attemptResult att 2 = out → make_request att = out)
    ∧ (∀ att att' : Nat → Except String Resp,
       (∀ i, i < Config.MAX_RETRIES → att i = att' i) →
       make_request att = make_request att') := by
  refine ⟨?_, ?_, ?_, ?_⟩
  · intro att r h
    rw [make_request_eq_go]
    simp [make_request_go, h]
  · intro att e0 r h0 h1
    rw [make_request_eq_go]
    simp [make_request_go, h0, h1, Config.MAX_RETRIES]
  · intro att e0 e1 out h0 h1 h2
    rw [make_request_eq_go]
    cases out with
    | ok r => simp [make_request_go, h0, h1, h2, Config.MAX_RETRIES]
    | error e => simp [make_request_go, h0, h1, h2, Config.MAX_RETRIES]
  · intro att att' h
    have h0 := h 0 (by decide)
    have h1 := h 1 (by decide)
    have h2 := h 2 (by decide)
    rw [make_request_eq_go, make_request_eq_go]
    simp [make_request_go, attemptResult, h0, h1, h2]

/-- A network oracle whose first three attempts fail and whose fourth
attempt would succeed. -/
def attRetryDemo : Nat → Except String Resp :=
  fun i => if i = 0 then .error "e0" else if i = 1 then .error "e1"
    else if i = 2 then .error "e2" else .ok ⟨200, [], "late"⟩

/-- Claim C3 counterexample: the claim says the fetch performs maxRetries
retries beyond the first attempt, i.e. would reach a fourth attempt; but
with the first three attempts failing and the fourth succeeding,
make_request surfaces the third attempt's failure and never reaches the
fourth. -/
theorem retry_count_claim_counterexample :
    make_request attRetryDemo = .error "e2" ∧
    attRetryDemo 3 = .ok ⟨200, [], "late"⟩ ∧
    Config.MAX_RETRIES = 3 :=
  ⟨rfl, rfl, rfl⟩

/-- A network oracle whose three in-range attempts all fail. -/
def attRetryWitness : Nat → Except String Resp :=
  fun i => if i = 0 then .error "w0" else if i = 1 then .error "w1" else .error "w2"

/-- Witness for the amended C3 at a concrete all-failing oracle. -/
theorem retry_count_amended_witness :
    make_request attRetryWitness = .error "w2" :=
  retry_count_amended.2.2.1 attRetryWitness "w0" "w1" (.error "w2") rfl rfl rfl

/-- Claim C7 (amended): a response whose status is below 400 — including
every 3xx, in particular a 301/302 carrying its Location header when
redirects are disabled — is returned as-is; only a status of 400 or above
is treated as a network-level failure, retried, and surfaced as the final
attempt's HTTPError when retries exhaust. -/
theorem status_failure_amended :
    (∀ (att : Nat → Except String Resp) (r : Resp),
       att 0 = .ok r → r.status < 400 → make_request att = .ok r)
    ∧ (∀ (att : Nat → Except String Resp) (r : Resp),
       att 0 = .ok r → (r.status = 301 ∨ r.status = 302) → make_request att = .ok r)
    ∧ (∀ (att : Nat → Except String Resp) (r r' : Resp),
       att 0 = .ok r → 400 ≤ r.status → att 1 = .ok r' → r'.status < 400 →
       make_request att = .ok r')
    ∧ (∀ (att : Nat → Except String Resp) (r0 r1 r2 : Resp),
       att 0 = .ok r0 → att 1 = .ok r1 → att 2 = .ok r2 →
       400 ≤ r0.status → 400 ≤ r1.status → 400 ≤ r2.status →
       make_request att = .error ("HTTPError " ++ toString r2.status)) := by
  refine ⟨?_, ?_, ?_, ?_⟩
  · intro att r h hlt
    have h400 : ¬ 400 ≤ r.status := by omega
    rw [make_request_eq_go]
    simp [make_request_go, attemptResult, raise_for_status, h, h400]
  · intro att r h hs
    have h400 : ¬ 400 ≤ r.status := by rcases hs with h3 | h3 <;> omega
    rw [make_request_eq_go]
    simp [make_request_go, attemptResult, raise_for_status, h, h400]
  · intro att r r' h h400 h1 hlt
    have h400' : ¬ 400 ≤ r'.status := by omega
    rw [make_request_eq_go]
    simp [make_request_go, attemptResult, raise_for_status, h, h400, h1, h400',
      Config.MAX_RETRIES]
  · intro att r0 r1 r2 h0 h1 h2 g0 g1 g2
    rw [make_request_eq_go]
    simp [make_request_go, attemptResult, raise_for_status, h0, h1, h2, g0, g1, g2,
      Config.MAX_RETRIES]

/-- A 303 response with a Location header: not 2xx and not 301/302. -/
def resp303 : Resp := ⟨303, [("Location", "http://target/real")], ""⟩

/-- A network oracle answering 303 on the first attempt and failing after. -/
def att303 : Nat → Except String Resp :=
  fun i => if i = 0 then .ok resp303 else .error "later attempts fail"

/-- Claim C7 counterexample: a 303 response — not 2xx and outside the
claim's 301/302 exception — is returned as-is by make_request instead of
being treated as a network-level failure and retried (the later attempts,
which all fail, are never consulted). -/
theorem non2xx_failure_counterexample :
    make_request att303 = .ok resp303 ∧ resp303.status = 303 := ⟨rfl, rfl⟩

/-- A 301 response with its Location header. -/
def resp301W : Resp := ⟨301, [("Location", "http://t")], ""⟩

/-- The oracle answering that 301 on every attempt. -/
def att301W : Nat → Except String Resp := fun _ => .ok resp301W

/-- Witness for the amended C7: the 301 response is returned as-is. -/
theorem status_failure_amended_witness :
    make_request att301W = .ok resp301W :=
  status_failure_amended.2.1 att301W resp301W rfl (Or.inl rfl)

/-- Claim C10: when the decoded request body's url field holds a non-string
JSON value, stripping it raises an unanticipated fault caught only at the
outermost boundary, so the handler answers the generic 500 — not the 400
"url required" or 400 "malformed request" responses. -/
theorem nonstring_url_internal_error (env : FetchEnv) (jl : JLoads)
    (fields : List (String × Json)) (j : Json)
    (hfind : List.lookup "url" fields = some j)
    (hnotstr : ∀ s : String, j ≠ .str s) :
    handler env jl ⟨some "POST", .pyBody (.obj fields)⟩ = serverErrorResp := by
  cases j with
  | str s => exact absurd rfl (hnotstr s)
  | null => simp [handler, handlerCore, requestDataOf, pyGetD, hfind, pyStrip]
  | bool b => simp [handler, handlerCore, requestDataOf, pyGetD, hfind, pyStrip]
  | num q => simp [handler, handlerCore, requestDataOf, pyGetD, hfind, pyStrip]
  | arr xs => simp [handler, handlerCore, requestDataOf, pyGetD, hfind, pyStrip]
  | obj fs => simp [handler, handlerCore, requestDataOf, pyGetD, hfind, pyStrip]

/-- Witness for C10: a numeric url field produces the generic 500. -/
theorem nonstring_url_internal_error_witness :
    handler (fun _ _ _ => .error "net") (fun _ => none)
      ⟨some "POST", .pyBody (.obj [("url", .num 5)])⟩ = serverErrorResp :=
  nonstring_url_internal_error (fun _ _ _ => .error "net") (fun _ => none)
    [("url", .num 5)] (.num 5) rfl (fun _ h => Json.noConfusion h)

/-- Claim C4 (amended): an unanticipated internal fault raised inside the
strategy's parse is caught by the strategy's own broad exception handler,
relabeled as a ValueError carrying the platform prefix, and reported by
the handler as a 400 extraction failure; the outermost 500 boundary only
covers faults outside the strategy's try block. -/
theorem fault_relabel_amended (env : FetchEnv) (jl : JLoads) (u m : String)
    (hu : stripStr u = u)
    (hplat : get_platform_from_url u = some "douyin")
    (hinner : DouyinParser.parseInner env jl u = .error (.fault m)) :
    DouyinParser.parse env jl u = .error ("抖音视频解析失败: " ++ m) ∧
    handler env jl ⟨some "POST", .pyBody (.obj [("url", .str u)])⟩ =
      mkFail 400 ("抖音视频解析失败: " ++ m) := by
  have hparse : DouyinParser.parse env jl u = .error ("抖音视频解析失败: " ++ m) := by
    simp [DouyinParser.parse, hinner, PyErr.msg]
  refine ⟨hparse, ?_⟩
  have hne : u ≠ "" := by
    intro h0
    rw [h0] at hplat
    exact absurd hplat (by decide)
  simp [handler, handlerCore, requestDataOf, pyGetD, List.lookup, pyStrip, hu, hne,
    hplat, get_parser_for, runParserKind, hparse]

/-- The douyin share URL of the C4 counterexample. -/
def urlC4 : String := "https://www.douyin.com/video/123"

/-- A network environment: the share URL resolves without redirect; the
item-info API answers the body "5". -/
def envC4 : FetchEnv := fun url _ _ =>
  if url = urlC4 then .ok ⟨200, [], ""⟩ else .ok ⟨200, [], "5"⟩

/-- json.loads oracle: "5" decodes to the number 5. -/
def jlC4 : JLoads := fun s => if s = "5" then some (.num 5) else none

/-- The POST event carrying the C4 url. -/
def evC4 : Event := ⟨some "POST", .pyBody (.obj [("url", .str urlC4)])⟩

/-- Claim C4 counterexample: the API body decodes to a number, so the
membership test `'item_list' in data` raises a TypeError — an
unanticipated internal fault, not a domain error — yet the handler answers
400 with the relabeled extraction-failure message instead of the claimed
opaque 500. -/
theorem fault_relabel_counterexample :
    DouyinParser.parseInner envC4 jlC4 urlC4 =
      .error (.fault "argument of type 'int' is not iterable") ∧
    handler envC4 jlC4 evC4 =
      mkFail 400 "抖音视频解析失败: argument of type 'int' is not iterable" := by
  exact ⟨rfl, rfl⟩

/-- Witness for the amended C4 at the concrete fault environment. -/
theorem fault_relabel_amended_witness :
    DouyinParser.parse envC4 jlC4 urlC4 =
      .error ("抖音视频解析失败: " ++ "argument of type 'int' is not iterable") ∧
    handler envC4 jlC4 ⟨some "POST", .pyBody (.obj [("url", .str urlC4)])⟩ =
      mkFail 400 ("抖音视频解析失败: " ++ "argument of type 'int' is not iterable") :=
  fault_relabel_amended envC4 jlC4 urlC4 "argument of type 'int' is not iterable"
    rfl rfl rfl

theorem replaceAll_eq_nil_iff (p0 : Char) (ps rep : List Char) (hrep : rep ≠ [])
    (cs : List Char) :
    (replaceAll p0 ps rep cs = []) ↔ cs = [] := by
  cases cs with
  | nil => simp [replaceAll, replaceAllGo]
  | cons c t =>
    simp only [replaceAll, List.length_cons, replaceAllGo]
    constructor
    · intro h
      split at h
      · exact absurd (List.append_eq_nil.mp h).1 hrep
      · exact List.noConfusion h
    · intro h
      exact List.noConfusion h

theorem rewriteWatermark_eq_empty_iff (s : String) :
    (rewriteWatermark s = "") ↔ s = "" := by
  obtain ⟨l⟩ := s
  show (String.mk (replaceAll 'w' ("atermark=1".toList) ("watermark=0".toList) l) = "") ↔ _
  rw [String.ext_iff, String.ext_iff]
  show (replaceAll 'w' ("atermark=1".toList) ("watermark=0".toList) l = []) ↔ (l = [])
  exact replaceAll_eq_nil_iff 'w' _ _ (by decide) l

/-- Whether a decoded value is a non-empty string (used in statements). -/
def isNonemptyStrJ : Json → Bool
  | .str s => if s = "" then false else true
  | _ => false

theorem douyin_inner_download_url (env : FetchEnv) (jl : JLoads) (url : String) (j : Json)
    (h : DouyinParser.parseInner env jl url = .ok j) :
    (jfield j "download_url").any isNonemptyStrJ = true := by
  unfold DouyinParser.parseInner at h
  try dsimp only [] at h
  repeat' split at h
  all_goals try exact Except.noConfusion h
  all_goals (
    injection h with hj
    subst hj
    simp_all [isNonemptyStrJ, jfield, List.lookup, truthy, rewriteWatermark_eq_empty_iff])

theorem kuaishou_pd_download_url (pd : Json) (j : Json)
    (h : KuaishouParser.fromPageData pd = .ok j) :
    (jfield j "download_url").any truthy = true := by
  unfold KuaishouParser.fromPageData at h
  try dsimp only [] at h
  repeat' split at h
  all_goals try exact Except.noConfusion h
  all_goals (
    injection h with hj
    subst hj
    simp_all [jfield, List.lookup])

theorem kuaishou_inner_download_url (env : FetchEnv) (jl : JLoads) (url : String) (j : Json)
    (h : KuaishouParser.parseInner env jl url = .ok j) :
    (jfield j "download_url").any truthy = true := by
  unfold KuaishouParser.parseInner at h
  repeat' split at h
  all_goals try exact Except.noConfusion h
  exact kuaishou_pd_download_url _ j h

theorem xhs_inner_download_url (env : FetchEnv) (jl : JLoads) (url : String) (j : Json)
    (h : XiaohongshuParser.parseInner env jl url = .ok j) :
    (jfield j "download_url").any truthy = true := by
  unfold XiaohongshuParser.parseInner at h
  try dsimp only [] at h
  repeat' split at h
  all_goals try exact Except.noConfusion h
  all_goals (
    injection h with hj
    subst hj
    simp_all [jfield, List.lookup])

/-- Claim C5 (amended): a Success outcome of any of the three strategies
always carries a download_url field holding a truthy value — never a
missing field and never the empty string; for the first (douyin) strategy
the value is moreover always a non-empty string, while the other two
strategies pass a truthy non-string payload value through unchanged. -/
theorem download_url_truthy_amended :
    (∀ (env : FetchEnv) (jl : JLoads) (url : String) (j : Json),
       DouyinParser.parse env jl url = .ok j →
       (jfield j "download_url").any isNonemptyStrJ = true)
    ∧ (∀ (env : FetchEnv) (jl : JLoads) (url : String) (j : Json),
       KuaishouParser.parse env jl url = .ok j →
       (jfield j "download_url").any truthy = true)
    ∧ (∀ (env : FetchEnv) (jl : JLoads) (url : String) (j : Json),
       XiaohongshuParser.parse env jl url = .ok j →
       (jfield j "download_url").any truthy = true) := by
  refine ⟨?_, ?_, ?_⟩
  · intro env jl url j h
    unfold DouyinParser.parse at h
    cases hp : DouyinParser.parseInner env jl url with
    | ok x =>
      rw [hp] at h
      simp only [Except.ok.injEq] at h
      subst h
      exact douyin_inner_download_url env jl url x hp
    | error e => rw [hp] at h; exact Except.noConfusion h
  · intro env jl url j h
    unfold KuaishouParser.parse at h
    cases hp : KuaishouParser.parseInner env jl url with
    | ok x =>
      rw [hp] at h
      simp only [Except.ok.injEq] at h
      subst h
      exact kuaishou_inner_download_url env jl url x hp
    | error e => rw [hp] at h; exact Except.noConfusion h
  · intro env jl url j h
    unfold XiaohongshuParser.parse at h
    cases hp : XiaohongshuParser.parseInner env jl url with
    | ok x =>
      rw [hp] at h
      simp only [Except.ok.injEq] at h
      subst h
      exact xhs_inner_download_url env jl url x hp
    | error e => rw [hp] at h; exact Except.noConfusion h

/-- The kuaishou share URL of the C5 counterexample. -/
def urlC5 : String := "https://www.kuaishou.com/short-video/1"

/-- A page whose inline pageData carries a numeric srcNoMark. -/
def pageC5 : String := "window.pageData = \x7b\"videoInfo\":\x7b\"srcNoMark\":7\x7d\x7d;"

/-- The captured pageData text of that page. -/
def capC5 : String := "\x7b\"videoInfo\":\x7b\"srcNoMark\":7\x7d\x7d"

/-- The network environment serving that page. -/
def envC5 : FetchEnv := fun _ _ _ => .ok ⟨200, [], pageC5⟩

/-- json.loads oracle decoding the captured text. -/
def jlC5 : JLoads := fun s =>
  if s = capC5 then some (.obj [("videoInfo", .obj [("srcNoMark", .num 7)])]) else none

/-- The success record the kuaishou strategy builds for that page. -/
def recC5 : Json := .obj [("success", .bool true), ("title", .str "快手视频"),
  ("download_url", .num 7), ("platform", .str "快手"), ("author", .str ""),
  ("size", .str "未知"), ("filename", .str "kuaishou_video.mp4")]

/-- Claim C5 counterexample: a payload whose srcNoMark field is the number
7 produces a Success outcome whose download_url is that number — truthy,
but not a non-empty string as the claim asserts. -/
theorem download_url_string_counterexample :
    KuaishouParser.parse envC5 jlC5 urlC5 = .ok recC5 ∧
    jfield recC5 "download_url" = some (.num 7) ∧
    (jfield recC5 "download_url").any isNonemptyStrJ = false :=
  ⟨rfl, rfl, rfl⟩

/-- The douyin share URL of the C5 witness. -/
def urlW5 : String := "https://www.douyin.com/video/42"

/-- Network environment: the share URL resolves directly; the API answers
the body "W5API". -/
def envW5 : FetchEnv := fun url _ _ =>
  if url = urlW5 then .ok ⟨200, [], ""⟩ else .ok ⟨200, [], "W5API"⟩

/-- json.loads oracle decoding the API body to a one-item payload. -/
def jlW5 : JLoads := fun s =>
  if s = "W5API" then
    some (.obj [("item_list", .arr [ .obj [("video", .obj [("play_addr",
      .obj [("url_list", .arr [ .str "http://v/a?watermark=1" ])])])]])])
  else none

/-- The success record the douyin strategy builds for that payload (the
duration term is the unreduced 0/1000 the strategy computes). -/
def recW5 : Json := .obj [("success", .bool true), ("title", .str "抖音视频"),
  ("download_url", .str "http://v/a?watermark=0"), ("platform", .str "抖音"),
  ("video_id", .str "42"), ("author", .str ""), ("duration", .num ((0 : ℚ)/1000)),
  ("size", .str "未知"), ("filename", .str "douyin_42.mp4")]

/-- Witness for the amended C5: a concrete douyin success carries a
non-empty string download_url. -/
theorem download_url_truthy_amended_witness :
    (jfield recW5 "download_url").any isNonemptyStrJ = true :=
  download_url_truthy_amended.1 envW5 jlW5 urlW5 recW5 rfl

/-- The download_url field of a successful outcome (used in statements). -/
def downloadUrlOf (r : Except PyErr Json) : Option Json :=
  match r with
  | .ok j => jfield j "download_url"
  | .error _ => none

/-- Claim C8 (amended): over the decoded page-data object, the kuaishou
strategy selects srcNoMark as the download URL whenever srcNoMark is
present and truthy; when srcNoMark is absent or falsy it falls back to
src; and it fails with the no-download-URL error when that choice is falsy
too.  Mere presence of both fields is not enough: a present but falsy
srcNoMark is skipped in favor of src. -/
theorem kuaishou_source_selection_amended :
    (∀ (pd vi snm : Json),
       pyGetD pd "videoInfo" (.obj []) = .ok vi → truthy vi = true →
       pyGetD vi "srcNoMark" .null = .ok snm → truthy snm = true →
       downloadUrlOf (KuaishouParser.fromPageData pd) = some snm)
    ∧ (∀ (pd vi snm src : Json),
       pyGetD pd "videoInfo" (.obj []) = .ok vi → truthy vi = true →
       pyGetD vi "srcNoMark" .null = .ok snm → truthy snm = false →
       pyGetD vi "src" .null = .ok src → truthy src = true →
       downloadUrlOf (KuaishouParser.fromPageData pd) = some src)
    ∧ (∀ (pd vi snm src : Json),
       pyGetD pd "videoInfo" (.obj []) = .ok vi → truthy vi = true →
       pyGetD vi "srcNoMark" .null = .ok snm → truthy snm = false →
       pyGetD vi "src" .null = .ok src → truthy src = false →
       KuaishouParser.fromPageData pd = .error (.valueErr "无法获取视频下载链接")) := by
  refine ⟨?_, ?_, ?_⟩
  · intro pd vi snm hvi htv hsnm hts
    cases vi with
    | obj l =>
      unfold KuaishouParser.fromPageData
      rw [hvi]
      simp only [pyGetD] at hsnm
      simp [htv, hsnm, hts, downloadUrlOf, jfield, List.lookup, pyGetD]
    | null => simp [pyGetD] at hsnm
    | bool b => simp [pyGetD] at hsnm
    | num q => simp [pyGetD] at hsnm
    | str s => simp [pyGetD] at hsnm
    | arr xs => simp [pyGetD] at hsnm
  · intro pd vi snm src hvi htv hsnm hts hsrc hts2
    cases vi with
    | obj l =>
      unfold KuaishouParser.fromPageData
      rw [hvi]
      simp only [pyGetD] at hsnm hsrc
      simp [htv, hsnm, hts, hsrc, hts2, downloadUrlOf, jfield, List.lookup, pyGetD]
    | null => simp [pyGetD] at hsnm
    | bool b => simp [pyGetD] at hsnm
    | num q => simp [pyGetD] at hsnm
    | str s => simp [pyGetD] at hsnm
    | arr xs => simp [pyGetD] at hsnm
  · intro pd vi snm src hvi htv hsnm hts hsrc hts2
    cases vi with
    | obj l =>
      unfold KuaishouParser.fromPageData
      rw [hvi]
      simp only [pyGetD] at hsnm hsrc
      simp [htv, hsnm, hts, hsrc, hts2, pyGetD]
    | null => simp [pyGetD] at hsnm
    | bool b => simp [pyGetD] at hsnm
    | num q => simp [pyGetD] at hsnm
    | str s => simp [pyGetD] at hsnm
    | arr xs => simp [pyGetD] at hsnm

/-- A videoInfo object with both source fields present and srcNoMark empty. -/
def viC8 : Json := .obj [("srcNoMark", .str ""), ("src", .str "http://v/real")]

/-- The page-data object of the C8 counterexample. -/
def pdC8 : Json := .obj [("videoInfo", viC8)]

/-- Claim C8 counterexample: both srcNoMark and src are present, yet the
strategy does not select srcNoMark — the present-but-empty srcNoMark is
skipped and src becomes the download URL. -/
theorem kuaishou_srcnomark_counterexample :
    jfield viC8 "srcNoMark" = some (.str "") ∧
    jfield viC8 "src" = some (.str "http://v/real") ∧
    downloadUrlOf (KuaishouParser.fromPageData pdC8) = some (.str "http://v/real") :=
  ⟨rfl, rfl, rfl⟩

/-- A videoInfo object with both source fields present and truthy. -/
def viW8 : Json := .obj [("srcNoMark", .str "http://nm"), ("src", .str "http://v")]

/-- The page-data object of the C8 witness. -/
def pdW8 : Json := .obj [("videoInfo", viW8)]

/-- Witness for the amended C8: a truthy srcNoMark is selected. -/
theorem kuaishou_source_selection_amended_witness :
    downloadUrlOf (KuaishouParser.fromPageData pdW8) = some (.str "http://nm") :=
  kuaishou_source_selection_amended.1 pdW8 viW8 (.str "http://nm") rfl rfl rfl rfl

theorem replaceAllGo_not_contains (p0 : Char) (ps rep : List Char) :
    ∀ (fuel : Nat) (cs : List Char),
      containsSub (p0 :: ps) cs = false → replaceAllGo p0 ps rep fuel cs = cs := by
  intro fuel
  induction fuel with
  | zero => intro cs _; simp [replaceAllGo]
  | succ fuel ih =>
    intro cs hc
    cases cs with
    | nil => simp [replaceAllGo]
    | cons c t =>
      simp only [containsSub, Bool.or_eq_false_iff] at hc
      have hcond : ¬(c = p0 ∧ (litMatch ps t).isSome = true) := by
        rintro ⟨hceq, hsome⟩
        subst hceq
        have : litMatch (c :: ps) (c :: t) = litMatch ps t := by simp [litMatch]
        rw [this, hsome] at hc
        exact Bool.noConfusion hc.1
      simp only [replaceAllGo]
      rw [if_neg hcond, ih t hc.2]

theorem replaceAllGo_contains (r0 : Char) (rtl : List Char) (p0 : Char) (ps : List Char) :
    ∀ (fuel : Nat) (cs : List Char), cs.length ≤ fuel →
      containsSub (p0 :: ps) cs = true →
      containsSub (r0 :: rtl) (replaceAllGo p0 ps (r0 :: rtl) fuel cs) = true := by
  intro fuel
  induction fuel with
  | zero =>
    intro cs hlen hc
    have : cs = [] := List.length_eq_zero.mp (Nat.le_zero.mp hlen)
    subst this
    simp [containsSub, litMatch] at hc
  | succ fuel ih =>
    intro cs hlen hc
    cases cs with
    | nil => simp [containsSub, litMatch] at hc
    | cons c t =>
      simp only [replaceAllGo]
      by_cases hcond : c = p0 ∧ (litMatch ps t).isSome = true
      · rw [if_pos hcond]
        exact containsSub_append_self r0 rtl _
      · rw [if_neg hcond]
        apply containsSub_cons_of
        apply ih t (by simpa using Nat.le_of_succ_le_succ hlen)
        simp only [containsSub, Bool.or_eq_true] at hc
        rcases hc with hc | hc
        · exfalso
          apply hcond
          rw [Option.isSome_iff_exists] at hc
          obtain ⟨r, hr⟩ := hc
          rw [litMatch_eq_some] at hr
          simp only [List.cons_append, List.cons.injEq] at hr
          refine ⟨hr.1, ?_⟩
          rw [Option.isSome_iff_exists]
          exact ⟨r, (litMatch_eq_some ps t r).mpr hr.2⟩
        · exact hc

theorem replaceAllGo_length (p0 : Char) (ps rep : List Char)
    (hlen : rep.length = ps.length + 1) :
    ∀ (fuel : Nat) (cs : List Char), cs.length ≤ fuel →
      (replaceAllGo p0 ps rep fuel cs).length = cs.length := by
  intro fuel
  induction fuel with
  | zero =>
    intro cs hl
    have : cs = [] := List.length_eq_zero.mp (Nat.le_zero.mp hl)
    subst this
    simp [replaceAllGo]
  | succ fuel ih =>
    intro cs hl
    cases cs with
    | nil => simp [replaceAllGo]
    | cons c t =>
      simp only [replaceAllGo]
      by_cases hcond : c = p0 ∧ (litMatch ps t).isSome = true
      · rw [if_pos hcond]
        obtain ⟨r, hr⟩ := Option.isSome_iff_exists.mp hcond.2
        rw [litMatch_eq_some] at hr
        subst hr
        rw [List.drop_left]
        have hr1 : r.length ≤ fuel := by
          simp only [List.length_cons, List.length_append] at hl
          omega
        rw [List.length_append, ih r hr1, hlen]
        simp [List.length_append]
        omega
      · rw [if_neg hcond]
        simp only [List.length_cons]
        rw [ih t (by simpa using Nat.le_of_succ_le_succ hl)]

theorem replaceAllGo_watermark_pointwise :
    ∀ (fuel : Nat) (cs : List Char), cs.length ≤ fuel → ∀ i : Nat,
      (replaceAllGo 'w' ("atermark=1".toList) ("watermark=0".toList) fuel cs).get? i
          = cs.get? i ∨
      (cs.get? i = some '1' ∧
       (replaceAllGo 'w' ("atermark=1".toList) ("watermark=0".toList) fuel cs).get? i
          = some '0') := by
  intro fuel
  induction fuel with
  | zero => intro cs _ i; simp [replaceAllGo]
  | succ fuel ih =>
    intro cs hl i
    cases cs with
    | nil => simp [replaceAllGo]
    | cons c t =>
      simp only [replaceAllGo]
      by_cases hcond : c = 'w' ∧ (litMatch ("atermark=1".toList) t).isSome = true
      · rw [if_pos hcond]
        obtain ⟨hc, hsome⟩ := hcond
        subst hc
        obtain ⟨r, hr⟩ := Option.isSome_iff_exists.mp hsome
        rw [litMatch_eq_some] at hr
        subst hr
        have h11a : ("watermark=0".toList).length = 11 := by decide
        have h11b : ("watermark=1".toList).length = 11 := by decide
        have hin : ('w' :: ("atermark=1".toList ++ r) : List Char) =
            "watermark=1".toList ++ r := rfl
        rw [hin, List.drop_left]
        by_cases hi : i < 11
        · rw [List.get?_append (by rw [h11a]; exact hi),
            List.get?_append (by rw [h11b]; exact hi)]
          have hb : ∀ i' < 11,
              (("watermark=0".toList).get? i' = ("watermark=1".toList).get? i' ∨
               (("watermark=1".toList).get? i' = some '1' ∧
                ("watermark=0".toList).get? i' = some '0')) := by decide
          exact hb i hi
        · push_neg at hi
          rw [List.get?_append_right (by rw [h11a]; exact hi),
            List.get?_append_right (by rw [h11b]; exact hi), h11a, h11b]
          apply ih r ?_ (i - 11)
          simp only [List.length_cons, List.length_append] at hl
          omega
      · rw [if_neg hcond]
        cases i with
        | zero => left; rfl
        | succ n =>
          have := ih t (by simpa using Nat.le_of_succ_le_succ hl) n
          simpa using this

/-- Claim C9: a candidate URL containing the enabled watermark flag is
rewritten so the disabled flag appears in its place and the URL is
otherwise unchanged — same length, and every position either keeps its
character or turns a '1' into a '0'; a URL without the enabled flag is
returned unchanged. -/
theorem watermark_rewrite_correct :
    (∀ s : String, strContains s "watermark=1" = false → rewriteWatermark s = s)
    ∧ (∀ s : String, strContains s "watermark=1" = true →
        strContains (rewriteWatermark s) "watermark=0" = true)
    ∧ (∀ s : String, (rewriteWatermark s).toList.length = s.toList.length)
    ∧ (∀ (s : String) (i : Nat),
        (rewriteWatermark s).toList.get? i = s.toList.get? i ∨
        (s.toList.get? i = some '1' ∧
         (rewriteWatermark s).toList.get? i = some '0')) := by
  refine ⟨?_, ?_, ?_, ?_⟩
  · intro s hc
    obtain ⟨l⟩ := s
    show String.mk (replaceAllGo 'w' ("atermark=1".toList) ("watermark=0".toList)
      l.length l) = String.mk l
    exact congrArg String.mk (replaceAllGo_not_contains 'w' _ _ l.length l hc)
  · intro s hc
    obtain ⟨l⟩ := s
    exact replaceAllGo_contains 'w' ("atermark=0".toList) 'w' ("atermark=1".toList)
      l.length l (Nat.le_refl _) hc
  · intro s
    obtain ⟨l⟩ := s
    exact replaceAllGo_length 'w' ("atermark=1".toList) ("watermark=0".toList)
      (by decide) l.length l (Nat.le_refl _)
  · intro s i
    obtain ⟨l⟩ := s
    exact replaceAllGo_watermark_pointwise l.length l (Nat.le_refl _) i

/-- Witness for C9 at concrete URLs: one without the flag is unchanged,
one with the flag gains the disabled flag. -/
theorem watermark_rewrite_correct_witness :
    rewriteWatermark "http://v?x=1" = "http://v?x=1" ∧
    strContains (rewriteWatermark "http://v?watermark=1") "watermark=0" = true :=
  ⟨watermark_rewrite_correct.1 "http://v?x=1" rfl,
   watermark_rewrite_correct.2.1 "http://v?watermark=1" rfl⟩

theorem searchAny_eq_some {α : Type} (f : List Char → Option α) :
    ∀ (cs : List Char) (r : α), searchAny f cs = some r →
      ∃ a suffix, cs = a ++ suffix ∧ f suffix = some r := by
  intro cs
  induction cs with
  | nil =>
    intro r h
    exact ⟨[], [], rfl, by simpa [searchAny] using h⟩
  | cons c t ih =>
    intro r h
    simp only [searchAny] at h
    cases hf : f (c :: t) with
    | some x =>
      rw [hf] at h
      injection h with h1
      subst h1
      exact ⟨[], c :: t, rfl, hf⟩
    | none =>
      rw [hf] at h
      obtain ⟨a, suf, ha, hfs⟩ := ih r h
      exact ⟨c :: a, suf, by simp [ha], hfs⟩

theorem digitsAfterLit_eq_some (lit cs ds : List Char)
    (h : digitsAfterLit lit cs = some ds) :
    ds ≠ [] ∧ ds.all Char.isDigit = true ∧ ∃ rest, cs = lit ++ ds ++ rest := by
  unfold digitsAfterLit at h
  cases hm : litMatch lit cs with
  | none => rw [hm] at h; exact Option.noConfusion h
  | some rest0 =>
    rw [hm] at h
    dsimp only [] at h
    split at h
    · exact Option.noConfusion h
    · injection h with h1
      subst h1
      refine ⟨by simpa using (by assumption : ¬(rest0.takeWhile Char.isDigit).isEmpty = true),
        takeWhile_all Char.isDigit rest0, rest0.dropWhile Char.isDigit, ?_⟩
      rw [litMatch_eq_some] at hm
      rw [hm, List.append_assoc, List.takeWhile_append_dropWhile]

theorem searchTrailingNum_digits (cs ds : List Char)
    (h : searchTrailingNum cs = some ds) :
    ds ≠ [] ∧ ds.all Char.isDigit = true := by
  unfold searchTrailingNum at h
  dsimp only [] at h
  split at h
  · exact Option.noConfusion h
  · split at h
    · injection h with h1
      subst h1
      constructor
      · simp only [ne_eq, List.reverse_eq_nil_iff]
        simpa using (by assumption :
          ¬(((dropFinal '/' (dropFinal '\n' cs)).reverse.takeWhile Char.isDigit).isEmpty = true))
      · rw [List.all_reverse]
        exact takeWhile_all Char.isDigit _
    · exact Option.noConfusion h

/-- Claim C6: the first-platform strategy extracts the video identifier by
trying, in order, the pattern /video/<digits>, then item_ids=<digits>,
then a trailing /<digits>, returning the first pattern's captured digits —
a non-empty all-digit capture that genuinely follows the pattern's literal
in the URL; when none of the three patterns matches, the strategy fails
with the cannot-locate-identifier extraction error. -/
theorem douyin_video_id_extraction :
    (∀ url : String, DouyinParser.extract_video_id url =
       (match searchVideoPath url.toList with
        | some d => some (String.mk d)
        | none =>
          match searchItemIds url.toList with
          | some d => some (String.mk d)
          | none => (searchTrailingNum url.toList).map (fun d => String.mk d)))
    ∧ (∀ (cs d : List Char), searchVideoPath cs = some d →
        d ≠ [] ∧ d.all Char.isDigit = true ∧
        ∃ a b, cs = a ++ "/video/".toList ++ d ++ b)
    ∧ (∀ (cs d : List Char), searchItemIds cs = some d →
        d ≠ [] ∧ d.all Char.isDigit = true ∧
        ∃ a b, cs = a ++ "item_ids=".toList ++ d ++ b)
    ∧ (∀ (cs d : List Char), searchTrailingNum cs = some d →
        d ≠ [] ∧ d.all Char.isDigit = true)
    ∧ (∀ (env : FetchEnv) (jl : JLoads) (url : String) (r : Resp),
        make_request (env url false) = .ok r →
        r.status ≠ 301 → r.status ≠ 302 →
        DouyinParser.extract_video_id url = none →
        DouyinParser.parse env jl url = .error "抖音视频解析失败: 无法提取视频ID") := by
  refine ⟨?_, ?_, ?_, ?_, ?_⟩
  · intro url
    simp only [DouyinParser.extract_video_id, douyinIdPatterns, List.findSome?_cons]
    cases h1 : searchVideoPath url.toList with
    | some d => simp
    | none =>
      cases h2 : searchItemIds url.toList with
      | some d => simp
      | none =>
        cases h3 : searchTrailingNum url.toList with
        | some d => simp [List.findSome?]
        | none => simp [List.findSome?]
  · intro cs d h
    obtain ⟨a, suf, ha, hf⟩ := searchAny_eq_some _ cs d h
    obtain ⟨hne, hdig, rest, hr⟩ := digitsAfterLit_eq_some _ suf d hf
    subst ha
    exact ⟨hne, hdig, a, rest, by rw [hr]; simp [List.append_assoc]⟩
  · intro cs d h
    obtain ⟨a, suf, ha, hf⟩ := searchAny_eq_some _ cs d h
    obtain ⟨hne, hdig, rest, hr⟩ := digitsAfterLit_eq_some _ suf d hf
    subst ha
    exact ⟨hne, hdig, a, rest, by rw [hr]; simp [List.append_assoc]⟩
  · intro cs d h
    exact searchTrailingNum_digits cs d h
  · intro env jl url r hmr h301 h302 hext
    unfold DouyinParser.parse DouyinParser.parseInner
    rw [hmr]
    dsimp only []
    rw [if_neg (by simp [h301, h302]), hext]
    rfl

/-- The short link of the C6 witness: no pattern captures an identifier. -/
def urlW6 : String := "https://v.douyin.com/AbCdEf"

/-- An environment resolving every fetch to an empty 200 page. -/
def envW6 : FetchEnv := fun _ _ _ => .ok ⟨200, [], ""⟩

/-- Witness for C6: the identifier extraction fails on the concrete short
link and the strategy reports the cannot-locate-identifier error. -/
theorem douyin_video_id_extraction_witness :
    DouyinParser.parse envW6 (fun _ => none) urlW6 =
      .error "抖音视频解析失败: 无法提取视频ID" :=
  douyin_video_id_extraction.2.2.2.2 envW6 (fun _ => none) urlW6 ⟨200, [], ""⟩
    rfl (by decide) (by decide) rfl
